import Mathlib

/-!
Shallow embedding of the agent0-lite sidecar (app.py, agent0-lite/app.py,
contracts/vs_bias_prompt.py, polish/vs_bias.py) and verification of the
specification claims about it.

Modelling conventions:
 - network effects (DNS resolution, TCP connect, provider HTTP fetch) are
   passed in as explicit `Except`-valued oracles; a branch that makes no
   network call is a branch whose result does not depend on the oracle;
 - JSON response bodies are modelled by the inductive `JVal`;
 - HTTP headers are association lists of string pairs; per the ASGI
   specification the inbound header names are already lower-cased;
 - fresh uuid4 generation is modelled by an explicit `fresh` parameter;
 - `datetime.utcnow().isoformat()` is modelled by an explicit `now` parameter.
-/

namespace Agent0Lite

/-- JSON-like values used to model the response bodies built by the endpoints. -/
inductive JVal where
  | s (v : String)
  | b (v : Bool)
  | n (v : Nat)
  | arr (vs : List JVal)
  | obj (fields : List (String × JVal))

/-- Lookup of a field in a JSON object (first binding wins, as in a Python dict
built left to right with distinct keys). -/
def jLookup (j : JVal) (k : String) : Option JVal :=
  match j with
  | .obj fs => (fs.find? (fun p => p.1 == k)).map (·.2)
  | _ => none

/-- HTTP response: status code, response headers, JSON body. -/
structure HttpResponse where
  status : Nat
  headers : List (String × String)
  body : JVal

/-- Lookup of a header value in an association list (models Python dict get). -/
def lookupHeader (hs : List (String × String)) (k : String) : Option String :=
  (hs.find? (fun p => p.1 == k)).map (·.2)

/-- Model of `headers.get(k)` followed by Python truthiness (`if v:`):
a missing key or an empty-string value yields `none`. -/
def truthyGet (hs : List (String × String)) (k : String) : Option String :=
  match lookupHeader hs k with
  | some v => if v == "" then none else some v
  | none => none

/-- Model of app.py `_trace`: try the six keys in source order, fall back to a
fresh uuid4 hex (the `fresh` parameter). -/
def trace (hs : List (String × String)) (fresh : String) : String :=
  (((((truthyGet hs "x-trace-id").orElse fun _ => truthyGet hs "x-request-id").orElse fun _ =>
      truthyGet hs "trace-id").orElse fun _ => truthyGet hs "X-Trace-Id").orElse fun _ =>
      truthyGet hs "X-Request-Id").orElse (fun _ => truthyGet hs "Trace-Id") |>.getD fresh

/-- The trace id carried by the inbound request, when one is present: first
non-empty value among the lower-cased keys x-trace-id, x-request-id, trace-id
(ASGI lower-cases inbound header names, so the capitalized lookups in `trace`
never fire on a real request). -/
def traceFromHeaders (hs : List (String × String)) : Option String :=
  ((truthyGet hs "x-trace-id").orElse fun _ => truthyGet hs "x-request-id").orElse fun _ =>
    truthyGet hs "trace-id"

/-- Model of app.py `_probe_host`: DNS resolution then a bounded TCP connect,
with every failure captured as data. `dns` is the outcome of
`socket.gethostbyname` (resolved address or error text); `connect` is the
outcome of `socket.create_connection` at a given address. The function is
total: it always completes and never raises past its boundary. -/
def probe_host (dns : Except String String) (connect : String → Except String Unit) :
    Bool × Option String :=
  match dns with
  | .error e => (false, some e)
  | .ok ip =>
    match connect ip with
    | .ok _ => (true, none)
    | .error e => (false, some e)

/-- Result of one provider probe, as stored in the `_provider_probe` dict:
either `{ok, status}` after an HTTP roundtrip or `{ok: false, error}`. -/
structure ProviderCheck where
  ok : Bool
  status : Option Nat
  error : Option String
deriving DecidableEq

/-- Model of one branch of app.py `_provider_probe`: `key` is the configured
API key (empty string when not configured, matching `os.getenv(..., "")`),
`fetch` is the outcome of the HTTP GET to the provider models endpoint
(status code, or error text on a network/timeout fault). -/
def probe_provider (key : String) (fetch : Except String Nat) : ProviderCheck :=
  if key == "" then ⟨false, none, some "missing_key"⟩
  else
    match fetch with
    | .ok code => ⟨code == 200 || code == 401 || code == 403, some code, none⟩
    | .error e => ⟨false, none, some e⟩

/-- Model of app.py `_provider_probe`: probes the fixed provider set
{openai, groq}, each with its own key and its own fetch outcome. -/
def provider_probe (openaiKey groqKey : String)
    (fetchOpenai fetchGroq : Except String Nat) : ProviderCheck × ProviderCheck :=
  (probe_provider openaiKey fetchOpenai, probe_provider groqKey fetchGroq)

/-- Model of the app.py `/polish` handler: a Phase 1 stub that never reads the
request body and always answers 200 ready. -/
def polishEndpoint (hs : List (String × String)) (_body : String) (fresh : String) :
    HttpResponse :=
  let tid := trace hs fresh
  ⟨200, [("X-Trace-Id", tid)],
    .obj [("ok", .b true), ("status", .s "ready"), ("traceId", .s tid)]⟩

/-- Model of the app.py `/delegate` handler: a Phase 1 stub, same shape as
`/polish`. -/
def delegateEndpoint (hs : List (String × String)) (fresh : String) : HttpResponse :=
  let tid := trace hs fresh
  ⟨200, [("X-Trace-Id", tid)],
    .obj [("ok", .b true), ("status", .s "ready"), ("traceId", .s tid)]⟩

/-- Configuration snapshot relevant to the endpoints (built once at startup). -/
structure Config where
  serviceName : String
  buildVersion : String
  allowProviders : List String
  denyProviders : List String
  allowedHosts : List String

/-- JSON rendering of one network check entry, as built in the app.py health
dict comprehension: always an `ok` field, plus an `error` field exactly when
the error message is present and truthy (non-empty). -/
def netCheckJson (r : Bool × Option String) : JVal :=
  .obj ([("ok", .b r.1)] ++
    match r.2 with
    | some e => if e == "" then [] else [("error", .s e)]
    | none => [])

/-- JSON rendering of one provider check, as built in `_provider_probe`:
`{ok, status}` after an HTTP roundtrip, `{ok, error}` otherwise. -/
def providerCheckJson (p : ProviderCheck) : JVal :=
  .obj ([("ok", .b p.ok)] ++
    (match p.status with
     | some c => [("status", .n c)]
     | none => []) ++
    (match p.error with
     | some e => [("error", .s e)]
     | none => []))

/-- The per-host network probe results gathered by the health handler: one
`_probe_host` call per allowed host, port 443, connect timeout. -/
def healthNet (cfg : Config) (dns : String → Except String String)
    (connect : String → String → Except String Unit) :
    List (String × (Bool × Option String)) :=
  cfg.allowedHosts.map fun h => (h, probe_host (dns h) (connect h))

/-- Aggregate health verdict of app.py: `all(v.get("ok") for v in net.values())
if net else True`; provider checks are deliberately not consulted. -/
def netOk (net : List (String × (Bool × Option String))) : Bool :=
  net.all fun x => x.2.1

/-- The health payload built by app.py `_run` when every probe completes:
field order and contents follow the source dict, with `reason` appended
exactly when the aggregate verdict is false. -/
def healthPayload (cfg : Config) (net : List (String × (Bool × Option String)))
    (provs : ProviderCheck × ProviderCheck) : JVal :=
  let ok := netOk net
  .obj ([("ok", .b ok), ("service", .s cfg.serviceName), ("version", .s cfg.buildVersion),
    ("providers", .obj [("allow", .arr (cfg.allowProviders.map .s)),
      ("deny", .arr (cfg.denyProviders.map .s)),
      ("checks", .obj [("openai", providerCheckJson provs.1),
        ("groq", providerCheckJson provs.2)])]),
    ("network", .obj [("allowed_hosts", .arr (cfg.allowedHosts.map .s)),
      ("checks", .obj (net.map fun x => (x.1, netCheckJson x.2)))])] ++
    (if ok then [] else [("reason", .s "network checks failed")]))

/-- Model of the app.py `/health` handler. `timedOut` records whether
`asyncio.wait_for` raised `TimeoutError` before the probe fan-out finished;
the probe outcomes are the oracles described at `probe_host` and
`probe_provider`. -/
def healthEndpoint (cfg : Config) (hs : List (String × String)) (fresh : String)
    (dns : String → Except String String) (connect : String → String → Except String Unit)
    (provs : ProviderCheck × ProviderCheck) (timedOut : Bool) : HttpResponse :=
  let tid := trace hs fresh
  if timedOut then
    ⟨503, [("X-Trace-Id", tid)],
      .obj [("ok", .b false), ("reason", .s "health timeout"), ("traceId", .s tid)]⟩
  else
    let net := healthNet cfg dns connect
    ⟨if netOk net then 200 else 503, [("X-Trace-Id", tid)], healthPayload cfg net provs⟩

/-- Model of `resp.headers[k] = v`: replace an existing binding, else append. -/
def setHeader (hs : List (String × String)) (k v : String) : List (String × String) :=
  if hs.any (fun p => p.1 == k) then hs.map (fun p => if p.1 == k then (k, v) else p)
  else hs ++ [(k, v)]

/-- Model of the success path of the `_trace_logger` middleware: it recomputes
the trace id from the inbound headers (with its own fresh uuid4 fallback,
`freshM`) and overwrites the X-Trace-Id response header with it. -/
def middleware (hs : List (String × String)) (freshM : String) (resp : HttpResponse) :
    HttpResponse :=
  { resp with headers := setHeader resp.headers "X-Trace-Id" (trace hs freshM) }

/-- Model of the `_trace_logger` fault branch: a 500 JSON response carrying the
trace id in the body only (the source sets no response header on this path). -/
def errorResponse (hs : List (String × String)) (freshM : String) : HttpResponse :=
  let tid := trace hs freshM
  ⟨500, [],
    .obj [("ok", .b false), ("code", .n 500), ("message", .s "internal error"),
      ("traceId", .s tid)]⟩

/-- Header read on a response. -/
def getHeader (resp : HttpResponse) (k : String) : Option String :=
  lookupHeader resp.headers k

/-! Contract validation (contracts/vs_bias_prompt.py, pydantic v1 semantics). -/

/-- Validated content of a vs_bias_prompt artifact (class VSBiasContent). -/
structure VSBiasContent where
  user_query : String
  engineered_prompt : String
  notes_for_lite : Option String
  bias_dimensions : List String
deriving DecidableEq

/-- The fixed enumeration accepted by the `validate_dimensions` validator. -/
def VALID_DIMENSIONS : List String :=
  ["gender", "race", "age", "disability", "religion", "nationality", "sexual_orientation"]

/-- Validation of the string fields of VSBiasContent, in declaration order:
user_query 10 to 2000 chars, engineered_prompt 50 to 5000 chars, notes_for_lite
at most 1000 chars when supplied. -/
def checkStrings (uq ep : String) (notes : Option String) : Option String :=
  if uq.length < 10 || 2000 < uq.length then some "user_query length out of bounds"
  else if ep.length < 50 || 5000 < ep.length then some "engineered_prompt length out of bounds"
  else if notes.any (fun nt => 1000 < nt.length) then some "notes_for_lite too long"
  else none

/-- Validation of an explicitly supplied bias_dimensions list: the pydantic
item-count bounds (min_items 1, max_items 7) then the `validate_dimensions`
membership check; duplicates are not deduplicated. -/
def checkDims (l : List String) : Option String :=
  if l.length < 1 || 7 < l.length then some "bias_dimensions item count out of bounds"
  else if !(l.all fun d => VALID_DIMENSIONS.contains d) then some "Invalid bias dimension"
  else none

/-- Model of pydantic validation of `VSBiasContent`. Field constraints are
checked in declaration order; `bias` is `none` when the payload omits
`bias_dimensions`, in which case pydantic v1 installs the default
`["gender", "race", "age"]` without running the item-count bounds or the
custom validator (defaults are not validated in pydantic v1). -/
def validateContent (uq ep : String) (notes : Option String)
    (bias : Option (List String)) : Except String VSBiasContent :=
  match checkStrings uq ep notes with
  | some e => .error e
  | none =>
    match bias with
    | none => .ok ⟨uq, ep, notes, ["gender", "race", "age"]⟩
    | some l =>
      match checkDims l with
      | some e => .error e
      | none => .ok ⟨uq, ep, notes, l⟩

/-- Success test on a validation outcome. -/
def vOk (r : Except String VSBiasContent) : Bool :=
  match r with
  | .ok _ => true
  | .error _ => false

/-- Context block of the contract (class VSBiasContext). -/
structure VSBiasContext where
  app_name : String
  owner : Option String
  constraints : List String

/-- Polish instruction block of the contract (class VSBiasPolishInstructions). -/
structure VSBiasPolishInstructions where
  goals : List String
  allowed_changes : List String
  preserve_intent : Bool
  max_length : Option Nat

/-- Complete validated contract (class VSBiasPromptContract); `artifact_type`
has been checked to equal "vs_bias_prompt" by `check_artifact_type`. -/
structure VSBiasPromptContract where
  artifact_type : String
  content : VSBiasContent
  context : VSBiasContext
  polish_instructions : VSBiasPolishInstructions
  request_id : Option String

/-! Polish transformer (polish/vs_bias.py). -/

/-- Python whitespace characters stripped by `str.strip()` on ASCII text. -/
def isPySpace (c : Char) : Bool :=
  c == ' ' || c == '\t' || c == '\n' || c == '\r' || c == '\x0b' || c == '\x0c'

/-- Model of Python `str.strip()` at the character-list level: drop leading
whitespace, then drop trailing whitespace. -/
def pyStripList (cs : List Char) : List Char :=
  ((cs.dropWhile isPySpace).reverse.dropWhile isPySpace).reverse

/-- Model of Python `str.strip()`. -/
def pyStrip (s : String) : String :=
  ⟨pyStripList s.data⟩

/-- The polished artifact dict produced by `polish_vs_bias_prompt`. -/
structure PolishedArtifact where
  user_query : String
  engineered_prompt : String
  notes_for_lite : Option String
  bias_dimensions : List String
deriving DecidableEq

/-- The polish report dict produced by `polish_vs_bias_prompt`. -/
structure PolishReport where
  summary : String
  details : List String
  artifact_type : String
  timestamp : String

/-- Model of `polish_vs_bias_prompt`: deterministic string templating. `now`
stands for `datetime.utcnow().isoformat()`. -/
def polish_vs_bias_prompt (c : VSBiasPromptContract) (now : String) :
    PolishedArtifact × PolishReport :=
  let content := c.content
  let bias_list := String.intercalate ", " content.bias_dimensions
  let header := "### BIAS DIMENSIONS TO ANALYZE\n- Target dimensions: " ++ bias_list ++ "\n\n"
  let footer := "\n\n### CLARIFICATION FOR THE MODEL\n" ++
    "For each generated response variant:\n" ++
    "- Explicitly discuss how it may reflect bias across the listed dimensions.\n" ++
    "- Estimate the probability that a production model would output it.\n" ++
    "- Highlight which dimensions are most affected and why.\n"
  let improved_prompt := header ++ pyStrip content.engineered_prompt ++ footer
  (⟨content.user_query, improved_prompt, content.notes_for_lite, content.bias_dimensions⟩,
   ⟨"Added explicit bias dimensions header and clarification block.",
    ["Prepended a markdown header listing all bias dimensions.",
     "Appended explicit instructions for how to handle each dimension.",
     "Preserved original user query and bias dimensions."],
    c.artifact_type, now ++ "Z"⟩)

/-- The header block of the polished prompt as the specification describes it:
a fixed prefix, the comma-joined bias dimensions in input order, a blank line. -/
def biasHeader (dims : List String) : String :=
  "### BIAS DIMENSIONS TO ANALYZE\n- Target dimensions: " ++
    String.intercalate ", " dims ++ "\n\n"

/-- The fixed clarification footer appended by the transformer. -/
def POLISH_FOOTER : String :=
  "\n\n### CLARIFICATION FOR THE MODEL\n" ++
  "For each generated response variant:\n" ++
  "- Explicitly discuss how it may reflect bias across the listed dimensions.\n" ++
  "- Estimate the probability that a production model would output it.\n" ++
  "- Highlight which dimensions are most affected and why.\n"

/-! Claim theorems. -/

/-- C7: for every DNS outcome and connect outcome, the network probe completes
with a classified result and never raises: on DNS failure it returns ok=false
carrying the resolver error and is independent of the connect behaviour (no TCP
attempt is consulted); on successful resolution a successful connect yields
ok=true and any connect failure yields ok=false with the error text; ok is
false exactly when an error message is recorded. Totality is inherent: the
model is a total function. -/
theorem probe_host_spec (dns : Except String String) (connect : String → Except String Unit) :
    (∀ (e : String) (c₁ c₂ : String → Except String Unit),
        probe_host (Except.error e) c₁ = (false, some e)
        ∧ probe_host (Except.error e) c₁ = probe_host (Except.error e) c₂)
    ∧ (∀ ip : String, probe_host (Except.ok ip) connect =
        match connect ip with
        | .ok _ => (true, none)
        | .error e => (false, some e))
    ∧ ((probe_host dns connect).1 = false ↔ (probe_host dns connect).2.isSome) := by
  refine ⟨fun e c₁ c₂ => ⟨rfl, rfl⟩, fun ip => rfl, ?_⟩
  cases dns with
  | error e => simp [probe_host]
  | ok ip => cases h : connect ip <;> simp [probe_host, h]

/-- C6: for each provider in the fixed set {openai, groq}, an unconfigured key
(empty string) short-circuits to ok=false with error "missing_key"
independently of the network oracle (no network call is consulted); with a key
configured, statuses 200, 401 and 403 classify as ok=true with the status
recorded, any other status as ok=false with the status recorded, and a
network/timeout fault as ok=false annotated with the error text. -/
theorem provider_probe_spec (key oK gK : String) (fetch fO fG : Except String Nat) :
    (∀ f₁ f₂ : Except String Nat,
        probe_provider "" f₁ = ⟨false, none, some "missing_key"⟩
        ∧ probe_provider "" f₁ = probe_provider "" f₂)
    ∧ probe_provider key fetch =
        (if key == "" then ⟨false, none, some "missing_key"⟩
         else match fetch with
           | .ok code => ⟨code == 200 || code == 401 || code == 403, some code, none⟩
           | .error e => ⟨false, none, some e⟩)
    ∧ ((probe_provider key fetch).ok = true ↔
        key ≠ "" ∧ ∃ code, fetch = Except.ok code ∧ (code = 200 ∨ code = 401 ∨ code = 403))
    ∧ provider_probe oK gK fO fG = (probe_provider oK fO, probe_provider gK fG) := by
  refine ⟨fun f₁ f₂ => ⟨rfl, rfl⟩, rfl, ?_, rfl⟩
  constructor
  · intro h
    by_cases hk : key = ""
    · subst hk
      simp [probe_provider] at h
    · cases hf : fetch with
      | ok code =>
        subst hf
        refine ⟨hk, code, rfl, ?_⟩
        simp [probe_provider, hk] at h
        omega
      | error e =>
        subst hf
        simp [probe_provider, hk] at h
  · rintro ⟨hk, code, hf, hor⟩
    subst hf
    simp [probe_provider, hk]
    omega

/-- C6 witness: with key "k" configured and an HTTP 401 from the provider, the
probe classifies ok=true. -/
theorem provider_probe_spec_witness :
    (probe_provider "k" (Except.ok 401)).ok = true := by
  exact (provider_probe_spec "k" "" "" (Except.ok 401) (Except.error "e")
    (Except.ok 500)).2.2.1.mpr ⟨by decide, 401, rfl, by omega⟩

/-- C1 counterexample: the claim says a malformed JSON body yields HTTP 400 and
a schema-valid body yields a response carrying the polished artifact; the
`/polish` handler in app.py is a Phase 1 stub that answers 200
`{ok, status: "ready", traceId}` without reading the body, so at the concrete
malformed body "not json" the status is 200, not 400, and no polished artifact
field is present. -/
theorem polish_stub_counterexample :
    (polishEndpoint [] "not json" "t1").status = 200
    ∧ ((polishEndpoint [] "not json" "t1").status == 400) = false
    ∧ jLookup (polishEndpoint [] "not json" "t1").body "polishedArtifact" = none
    ∧ jLookup (polishEndpoint [] "not json" "t1").body "status" = some (JVal.s "ready") := by
  refine ⟨rfl, rfl, rfl, rfl⟩

/-- C1 amended: every POST /polish request is answered 200 with the fixed body
`{ok: true, status: "ready", traceId}`; the handler never reads the request
body, so contract validation and the polish transformer are not invoked for
any request (the response is independent of the body). -/
theorem polish_endpoint_stub (hs : List (String × String)) (b₁ b₂ fresh : String) :
    polishEndpoint hs b₁ fresh =
      ⟨200, [("X-Trace-Id", trace hs fresh)],
        .obj [("ok", .b true), ("status", .s "ready"), ("traceId", .s (trace hs fresh))]⟩
    ∧ polishEndpoint hs b₁ fresh = polishEndpoint hs b₂ fresh := by
  exact ⟨rfl, rfl⟩

/-- C9 counterexample: the claim says the /delegate body's status field is the
token "not_implemented"; on the concrete request with no headers the handler
answers with status field "ready", and the two tokens differ. -/
theorem delegate_status_counterexample :
    jLookup (delegateEndpoint [] "t0").body "status" = some (JVal.s "ready")
    ∧ ("ready" == "not_implemented") = false := by
  exact ⟨rfl, rfl⟩

/-- C9 amended: every POST /delegate request returns HTTP 200 with body
`{ok: true, status: "ready", traceId}` — the stub token is "ready", not
"not_implemented". -/
theorem delegate_endpoint_stub (hs : List (String × String)) (fresh : String) :
    delegateEndpoint hs fresh =
      ⟨200, [("X-Trace-Id", trace hs fresh)],
        .obj [("ok", .b true), ("status", .s "ready"), ("traceId", .s (trace hs fresh))]⟩
    ∧ (delegateEndpoint hs fresh).status = 200
    ∧ jLookup (delegateEndpoint hs fresh).body "ok" = some (JVal.b true)
    ∧ jLookup (delegateEndpoint hs fresh).body "status" = some (JVal.s "ready")
    ∧ jLookup (delegateEndpoint hs fresh).body "traceId" = some (JVal.s (trace hs fresh)) := by
  exact ⟨rfl, rfl, rfl, rfl, rfl⟩

/-- C3: when the probe fan-out completes (no timeout), the aggregate ok field
of the health body is exactly the conjunction of the per-host network probe
verdicts; the provider checks never influence the ok field or the status; and
the HTTP status is 200 exactly when the aggregate is true, 503 otherwise. -/
theorem health_aggregate_spec (cfg : Config) (hs : List (String × String)) (fresh : String)
    (dns : String → Except String String) (connect : String → String → Except String Unit)
    (provs provs' : ProviderCheck × ProviderCheck) :
    jLookup (healthEndpoint cfg hs fresh dns connect provs false).body "ok"
      = some (JVal.b (netOk (healthNet cfg dns connect)))
    ∧ (healthEndpoint cfg hs fresh dns connect provs false).status
      = (if netOk (healthNet cfg dns connect) then 200 else 503)
    ∧ ((healthEndpoint cfg hs fresh dns connect provs false).status = 200 ↔
        netOk (healthNet cfg dns connect) = true)
    ∧ (healthEndpoint cfg hs fresh dns connect provs false).status
      = (healthEndpoint cfg hs fresh dns connect provs' false).status
    ∧ jLookup (healthEndpoint cfg hs fresh dns connect provs false).body "ok"
      = jLookup (healthEndpoint cfg hs fresh dns connect provs' false).body "ok"
    ∧ netOk (healthNet cfg dns connect)
      = (cfg.allowedHosts.all fun h => (probe_host (dns h) (connect h)).1) := by
  refine ⟨rfl, rfl, ?_, rfl, rfl, ?_⟩
  · cases h : netOk (healthNet cfg dns connect) <;>
      simp [healthEndpoint, h]
  · unfold netOk healthNet
    generalize cfg.allowedHosts = l
    induction l with
    | nil => rfl
    | cons h t ih => simp only [List.map_cons, List.all_cons, ih]

/-- Helper: when the request carries a trace header, `trace` returns its value
verbatim, independently of the fresh-uuid fallback. -/
theorem trace_eq_of_header {hs : List (String × String)} {v : String}
    (h : traceFromHeaders hs = some v) (f : String) : trace hs f = v := by
  unfold traceFromHeaders at h
  unfold trace
  cases h1 : truthyGet hs "x-trace-id" <;>
    cases h2 : truthyGet hs "x-request-id" <;>
      cases h3 : truthyGet hs "trace-id" <;>
        simp [h1, h2, h3, Option.orElse] at h ⊢ <;> simp [h]

/-- Helper: the health payload built on the completed-probe path never contains
a traceId field. -/
theorem healthPayload_no_traceId (cfg : Config) (net : List (String × (Bool × Option String)))
    (provs : ProviderCheck × ProviderCheck) :
    jLookup (healthPayload cfg net provs) "traceId" = none := by
  cases h : netOk net <;> simp [healthPayload, jLookup, h, List.find?]

/-- C8 counterexample: the claim says every response carries the trace id as a
traceId field of the JSON body; the /health completed-probe response (here with
an empty host allowlist, so the fan-out trivially completes and the aggregate
is healthy) has status 200, carries the X-Trace-Id header, but its body has no
traceId field. -/
theorem health_body_traceId_counterexample :
    (healthEndpoint ⟨"agent0-lite", "phase1", ["openai", "groq"], ["openrouter"], []⟩
      [("x-trace-id", "abc")] "f" (fun _ => Except.error "dns down")
      (fun _ _ => Except.error "refused")
      (⟨false, none, some "missing_key"⟩, ⟨false, none, some "missing_key"⟩) false).status = 200
    ∧ getHeader
        (middleware [("x-trace-id", "abc")] "g"
          (healthEndpoint ⟨"agent0-lite", "phase1", ["openai", "groq"], ["openrouter"], []⟩
            [("x-trace-id", "abc")] "f" (fun _ => Except.error "dns down")
            (fun _ _ => Except.error "refused")
            (⟨false, none, some "missing_key"⟩, ⟨false, none, some "missing_key"⟩) false))
        "X-Trace-Id" = some "abc"
    ∧ jLookup
        (middleware [("x-trace-id", "abc")] "g"
          (healthEndpoint ⟨"agent0-lite", "phase1", ["openai", "groq"], ["openrouter"], []⟩
            [("x-trace-id", "abc")] "f" (fun _ => Except.error "dns down")
            (fun _ _ => Except.error "refused")
            (⟨false, none, some "missing_key"⟩, ⟨false, none, some "missing_key"⟩) false)).body
        "traceId" = none := by
  refine ⟨rfl, rfl, rfl⟩

/-- C8 amended: when an inbound trace header (first non-empty among x-trace-id,
x-request-id, trace-id, already lower-cased by ASGI) is present its value `v`
is used verbatim; the /polish, /delegate and /health responses then carry
X-Trace-Id = v, the /polish, /delegate and health-timeout bodies carry a
traceId field equal to v, but the health completed-probe body has no traceId
field, and the 500 fault response carries traceId only in the body, with no
X-Trace-Id header. (When no trace header is present, the middleware and the
endpoint each draw an independent fresh id, so header and body ids can
differ; the claimed equality only holds on the header-supplied path.) -/
theorem trace_id_amended (cfg : Config) (hs : List (String × String))
    (freshE freshM body : String) (dns : String → Except String String)
    (connect : String → String → Except String Unit) (provs : ProviderCheck × ProviderCheck)
    (v : String) (hv : traceFromHeaders hs = some v) :
    trace hs freshE = v
    ∧ getHeader (middleware hs freshM (polishEndpoint hs body freshE)) "X-Trace-Id" = some v
    ∧ jLookup (middleware hs freshM (polishEndpoint hs body freshE)).body "traceId"
        = some (JVal.s v)
    ∧ getHeader (middleware hs freshM (delegateEndpoint hs freshE)) "X-Trace-Id" = some v
    ∧ jLookup (middleware hs freshM (delegateEndpoint hs freshE)).body "traceId"
        = some (JVal.s v)
    ∧ getHeader (middleware hs freshM (healthEndpoint cfg hs freshE dns connect provs true))
        "X-Trace-Id" = some v
    ∧ jLookup (middleware hs freshM
        (healthEndpoint cfg hs freshE dns connect provs true)).body "traceId"
        = some (JVal.s v)
    ∧ getHeader (middleware hs freshM (healthEndpoint cfg hs freshE dns connect provs false))
        "X-Trace-Id" = some v
    ∧ jLookup (middleware hs freshM
        (healthEndpoint cfg hs freshE dns connect provs false)).body "traceId" = none
    ∧ jLookup (errorResponse hs freshM).body "traceId" = some (JVal.s v)
    ∧ getHeader (errorResponse hs freshM) "X-Trace-Id" = none := by
  have hE := trace_eq_of_header hv freshE
  have hM := trace_eq_of_header hv freshM
  refine ⟨hE, ?_, ?_, ?_, ?_, ?_, ?_, ?_, ?_, ?_, rfl⟩
  · simp [middleware, setHeader, getHeader, lookupHeader, polishEndpoint, hM]
  · simp [middleware, jLookup, polishEndpoint, hE]
  · simp [middleware, setHeader, getHeader, lookupHeader, delegateEndpoint, hM]
  · simp [middleware, jLookup, delegateEndpoint, hE]
  · simp [middleware, setHeader, getHeader, lookupHeader, healthEndpoint, hM]
  · simp [middleware, jLookup, healthEndpoint, hE]
  · simp [middleware, setHeader, getHeader, lookupHeader, healthEndpoint, hM]
  · simp only [middleware]
    exact healthPayload_no_traceId cfg (healthNet cfg dns connect) provs
  · simp [errorResponse, jLookup, hM]

/-- C8 amended witness: a concrete request carrying x-trace-id abc satisfies
the hypothesis, and the instantiated conclusion holds there. -/
theorem trace_id_amended_witness :
    traceFromHeaders [("x-trace-id", "abc")] = some "abc"
    ∧ trace [("x-trace-id", "abc")] "f" = "abc" := by
  refine ⟨rfl, ?_⟩
  exact (trace_id_amended ⟨"agent0-lite", "phase1", [], [], []⟩ [("x-trace-id", "abc")]
    "f" "g" "{}" (fun _ => Except.error "e") (fun _ _ => Except.error "e")
    (⟨false, none, some "missing_key"⟩, ⟨false, none, some "missing_key"⟩) "abc" rfl).1

/-- Helper: the string-field checks pass exactly when every bound holds. -/
theorem checkStrings_none_iff (uq ep : String) (nt : Option String) :
    checkStrings uq ep nt = none ↔
      (10 ≤ uq.length ∧ uq.length ≤ 2000 ∧ 50 ≤ ep.length ∧ ep.length ≤ 5000
       ∧ ∀ n, nt = some n → n.length ≤ 1000) := by
  unfold checkStrings
  split_ifs with h1 h2 h3
  · refine iff_of_false (by simp) ?_
    simp only [Bool.or_eq_true, decide_eq_true_eq] at h1
    rintro ⟨hA, hB, -⟩
    omega
  · refine iff_of_false (by simp) ?_
    simp only [Bool.or_eq_true, decide_eq_true_eq] at h2
    rintro ⟨-, -, hC, hD, -⟩
    omega
  · refine iff_of_false (by simp) ?_
    rcases nt with _ | n
    · simp [Option.any] at h3
    · simp only [Option.any, decide_eq_true_eq] at h3
      rintro ⟨-, -, -, -, hE⟩
      have := hE n rfl
      omega
  · refine iff_of_true rfl ?_
    simp only [Bool.or_eq_true, decide_eq_true_eq, not_or, not_lt] at h1 h2
    refine ⟨by omega, by omega, by omega, by omega, ?_⟩
    intro n hn
    subst hn
    simp only [Option.any, decide_eq_true_eq] at h3
    omega

/-- Helper: the explicit-list checks pass exactly when the item count is 1 to 7
and every entry lies in the enumeration. -/
theorem checkDims_none_iff (l : List String) :
    checkDims l = none ↔
      (1 ≤ l.length ∧ l.length ≤ 7 ∧ ∀ d ∈ l, d ∈ VALID_DIMENSIONS) := by
  unfold checkDims
  split_ifs with h1 h2
  · refine iff_of_false (by simp) ?_
    simp only [Bool.or_eq_true, decide_eq_true_eq] at h1
    rintro ⟨hF, hG, -⟩
    omega
  · refine iff_of_false (by simp) ?_
    simp only [Bool.not_eq_true', List.all_eq_false, List.contains, List.elem_eq_mem,
      decide_eq_false_iff_not] at h2
    rintro ⟨-, -, hH⟩
    rcases h2 with ⟨d, hd, hnot⟩
    exact hnot (decide_eq_true (hH d hd))
  · refine iff_of_true rfl ?_
    simp only [Bool.or_eq_true, decide_eq_true_eq, not_or, not_lt] at h1
    simp only [Bool.not_eq_true, Bool.not_eq_false', List.all_eq_true, List.contains,
      List.elem_eq_mem, decide_eq_true_eq] at h2
    exact ⟨by omega, by omega, h2⟩

/-- Helper: full characterization of validation success on a payload that
supplies an explicit bias_dimensions list. -/
theorem vOk_validate_some_iff (uq ep : String) (nt : Option String) (l : List String) :
    vOk (validateContent uq ep nt (some l)) = true ↔
      (10 ≤ uq.length ∧ uq.length ≤ 2000 ∧ 50 ≤ ep.length ∧ ep.length ≤ 5000
       ∧ (∀ n, nt = some n → n.length ≤ 1000)
       ∧ 1 ≤ l.length ∧ l.length ≤ 7 ∧ ∀ d ∈ l, d ∈ VALID_DIMENSIONS) := by
  cases hcs : checkStrings uq ep nt with
  | some e =>
    simp only [validateContent, hcs]
    refine iff_of_false (by simp [vOk]) ?_
    rintro ⟨hA, hB, hC, hD, hE, -⟩
    have hnone : checkStrings uq ep nt = none :=
      (checkStrings_none_iff uq ep nt).mpr ⟨hA, hB, hC, hD, hE⟩
    exact absurd (hnone.symm.trans hcs) (by simp)
  | none =>
    simp only [validateContent, hcs]
    cases hcd : checkDims l with
    | some e =>
      refine iff_of_false (by simp [vOk]) ?_
      rintro ⟨-, -, -, -, -, hF, hG, hH⟩
      have hnone : checkDims l = none := (checkDims_none_iff l).mpr ⟨hF, hG, hH⟩
      exact absurd (hnone.symm.trans hcd) (by simp)
    | none =>
      refine iff_of_true rfl ?_
      have hs := (checkStrings_none_iff uq ep nt).mp hcs
      have hd := (checkDims_none_iff l).mp hcd
      exact ⟨hs.1, hs.2.1, hs.2.2.1, hs.2.2.2.1, hs.2.2.2.2, hd.1, hd.2.1, hd.2.2⟩

/-- C5: validation enforces every bound tightly: with a fixed valid explicit
dimension list it rejects an engineeredPrompt of length 49 and accepts length
50, rejects a userQuery of length 9 and accepts length 10; and for any other
fields it rejects a list containing the out-of-enumeration value "political",
rejects an empty list, rejects any list of 8 or more entries, while the
accepted list `l` here may contain duplicates (1 to 7 entries drawn from the
enumeration, not deduplicated). -/
theorem validateContent_bounds (uq9 uq10 ep49 ep50 : String) (l : List String)
    (h9 : uq9.length = 9) (h10 : uq10.length = 10)
    (h49 : ep49.length = 49) (h50 : ep50.length = 50)
    (hl1 : 1 ≤ l.length) (hl7 : l.length ≤ 7)
    (hmem : ∀ d ∈ l, d ∈ VALID_DIMENSIONS) :
    vOk (validateContent uq10 ep49 none (some l)) = false
    ∧ vOk (validateContent uq10 ep50 none (some l)) = true
    ∧ vOk (validateContent uq9 ep50 none (some l)) = false
    ∧ (∀ (uq ep : String) (nt : Option String) (pre suf : List String),
        vOk (validateContent uq ep nt (some (pre ++ "political" :: suf))) = false)
    ∧ (∀ (uq ep : String) (nt : Option String),
        vOk (validateContent uq ep nt (some [])) = false)
    ∧ (∀ (uq ep : String) (nt : Option String) (a b c d e f g h : String) (rest : List String),
        vOk (validateContent uq ep nt (some (a::b::c::d::e::f::g::h::rest))) = false) := by
  refine ⟨?_, ?_, ?_, ?_, ?_, ?_⟩
  · rw [Bool.eq_false_iff, Ne, vOk_validate_some_iff]
    rintro ⟨-, -, hC, -⟩
    omega
  · rw [vOk_validate_some_iff]
    exact ⟨by omega, by omega, by omega, by omega, by rintro n ⟨⟩, hl1, hl7, hmem⟩
  · rw [Bool.eq_false_iff, Ne, vOk_validate_some_iff]
    rintro ⟨hA, -⟩
    omega
  · intro uq ep nt pre suf
    rw [Bool.eq_false_iff, Ne, vOk_validate_some_iff]
    rintro ⟨-, -, -, -, -, -, -, hH⟩
    have : ("political" : String) ∈ pre ++ "political" :: suf := by
      simp
    have hpol := hH _ this
    simp [VALID_DIMENSIONS] at hpol
  · intro uq ep nt
    rw [Bool.eq_false_iff, Ne, vOk_validate_some_iff]
    rintro ⟨-, -, -, -, -, hF, -⟩
    simp at hF
  · intro uq ep nt a b c d e f g h rest
    rw [Bool.eq_false_iff, Ne, vOk_validate_some_iff]
    rintro ⟨-, -, -, -, -, -, hG, -⟩
    simp [List.length_cons] at hG

/-- C5 witness: concrete strings of the boundary lengths and a duplicated
two-entry dimension list discharge every hypothesis. -/
theorem validateContent_bounds_witness :
    (String.mk (List.replicate 9 'u')).length = 9
    ∧ (String.mk (List.replicate 10 'u')).length = 10
    ∧ (String.mk (List.replicate 49 'e')).length = 49
    ∧ (String.mk (List.replicate 50 'e')).length = 50
    ∧ vOk (validateContent (String.mk (List.replicate 10 'u'))
        (String.mk (List.replicate 50 'e')) none (some ["gender", "gender"])) = true := by
  refine ⟨rfl, rfl, rfl, rfl, ?_⟩
  exact (validateContent_bounds (String.mk (List.replicate 9 'u'))
    (String.mk (List.replicate 10 'u')) (String.mk (List.replicate 49 'e'))
    (String.mk (List.replicate 50 'e')) ["gender", "gender"]
    rfl rfl rfl rfl (by decide) (by decide) (by decide)).2.1

/-- C10: a payload that omits bias_dimensions validates successfully whenever
the string bounds hold, and the result carries the default list
["gender", "race", "age"]; the item-count and enumeration checks never fire on
this path, in contrast with an explicitly supplied empty list, which is
rejected with the same surrounding fields. -/
theorem validateContent_default_dims (uq ep : String)
    (hA : 10 ≤ uq.length) (hB : uq.length ≤ 2000)
    (hC : 50 ≤ ep.length) (hD : ep.length ≤ 5000) :
    validateContent uq ep none none = .ok ⟨uq, ep, none, ["gender", "race", "age"]⟩
    ∧ vOk (validateContent uq ep none (some [])) = false := by
  constructor
  · have hcs : checkStrings uq ep none = none :=
      (checkStrings_none_iff uq ep none).mpr ⟨hA, hB, hC, hD, by rintro n ⟨⟩⟩
    simp [validateContent, hcs]
  · rw [Bool.eq_false_iff, Ne, vOk_validate_some_iff]
    rintro ⟨-, -, -, -, -, hF, -⟩
    simp at hF

/-- C10 witness: concrete valid strings discharge the length hypotheses and
the omitted list yields the default dimensions. -/
theorem validateContent_default_dims_witness :
    10 ≤ (String.mk (List.replicate 10 'u')).length
    ∧ validateContent (String.mk (List.replicate 10 'u'))
        (String.mk (List.replicate 50 'e')) none none
        = .ok ⟨String.mk (List.replicate 10 'u'), String.mk (List.replicate 50 'e'),
            none, ["gender", "race", "age"]⟩ := by
  refine ⟨by decide, ?_⟩
  exact (validateContent_default_dims (String.mk (List.replicate 10 'u'))
    (String.mk (List.replicate 50 'e')) (by decide) (by decide) (by decide) (by decide)).1

/-- Helper: the stripped list is the whitespace-dropped core of the input:
dropping the leading whitespace leaves the stripped list followed by the
trailing whitespace. -/
theorem dropWhile_eq_strip_append (cs : List Char) :
    cs.dropWhile isPySpace
      = pyStripList cs ++ ((cs.dropWhile isPySpace).reverse.takeWhile isPySpace).reverse := by
  have h := List.takeWhile_append_dropWhile (p := isPySpace)
    (l := (cs.dropWhile isPySpace).reverse)
  calc cs.dropWhile isPySpace
      = ((cs.dropWhile isPySpace).reverse).reverse := by rw [List.reverse_reverse]
    _ = (((cs.dropWhile isPySpace).reverse.takeWhile isPySpace)
          ++ ((cs.dropWhile isPySpace).reverse.dropWhile isPySpace)).reverse := by rw [h]
    _ = ((cs.dropWhile isPySpace).reverse.dropWhile isPySpace).reverse
          ++ ((cs.dropWhile isPySpace).reverse.takeWhile isPySpace).reverse := by
        rw [List.reverse_append]
    _ = pyStripList cs
          ++ ((cs.dropWhile isPySpace).reverse.takeWhile isPySpace).reverse := rfl

/-- Helper: stripping removes only a leading all-whitespace block and a
trailing all-whitespace block; internal characters are preserved in order. -/
theorem pyStripList_decomp (cs : List Char) :
    ∃ pre post : List Char,
      cs = pre ++ pyStripList cs ++ post
      ∧ pre.all isPySpace = true ∧ post.all isPySpace = true := by
  refine ⟨cs.takeWhile isPySpace,
    ((cs.dropWhile isPySpace).reverse.takeWhile isPySpace).reverse, ?_, ?_, ?_⟩
  · conv_lhs => rw [← List.takeWhile_append_dropWhile (p := isPySpace) (l := cs)]
    rw [List.append_assoc]
    congr 1
    exact dropWhile_eq_strip_append cs
  · exact List.all_takeWhile
  · rw [List.all_reverse]
    exact List.all_takeWhile

/-- Helper: the stripped list does not start with whitespace. -/
theorem pyStripList_head (cs : List Char) :
    ∀ c, (pyStripList cs).head? = some c → isPySpace c = false := by
  intro c hc
  have hd : (cs.dropWhile isPySpace).head? = some c := by
    rw [dropWhile_eq_strip_append cs, List.head?_append, hc]
    rfl
  have h := List.head?_dropWhile_not isPySpace cs
  rw [hd] at h
  exact h

/-- Helper: the stripped list does not end with whitespace. -/
theorem pyStripList_getLast (cs : List Char) :
    ∀ c, (pyStripList cs).getLast? = some c → isPySpace c = false := by
  intro c hc
  have hg : (pyStripList cs).getLast?
      = ((cs.dropWhile isPySpace).reverse.dropWhile isPySpace).head? := by
    unfold pyStripList
    rw [List.getLast?_reverse]
  have h := List.head?_dropWhile_not isPySpace (cs.dropWhile isPySpace).reverse
  rw [← hg, hc] at h
  exact h

/-- C4: the polished engineered prompt is exactly the bias-dimensions header
(fixed prefix, comma-joined dimensions in input order with duplicates
preserved, blank line), followed by the input prompt with only leading and
trailing whitespace removed (internal whitespace preserved in order), followed
by the fixed clarification footer; userQuery, notesForLite and biasDimensions
are copied through unchanged. -/
theorem polish_spec (c : VSBiasPromptContract) (now : String) :
    (polish_vs_bias_prompt c now).1.engineered_prompt
      = biasHeader c.content.bias_dimensions ++ pyStrip c.content.engineered_prompt
        ++ POLISH_FOOTER
    ∧ biasHeader c.content.bias_dimensions
      = "### BIAS DIMENSIONS TO ANALYZE\n- Target dimensions: "
        ++ String.intercalate ", " c.content.bias_dimensions ++ "\n\n"
    ∧ (polish_vs_bias_prompt c now).1.user_query = c.content.user_query
    ∧ (polish_vs_bias_prompt c now).1.notes_for_lite = c.content.notes_for_lite
    ∧ (polish_vs_bias_prompt c now).1.bias_dimensions = c.content.bias_dimensions
    ∧ (∃ pre post : List Char,
        c.content.engineered_prompt.data
          = pre ++ (pyStrip c.content.engineered_prompt).data ++ post
        ∧ pre.all isPySpace = true ∧ post.all isPySpace = true)
    ∧ (∀ ch, (pyStrip c.content.engineered_prompt).data.head? = some ch →
        isPySpace ch = false)
    ∧ (∀ ch, (pyStrip c.content.engineered_prompt).data.getLast? = some ch →
        isPySpace ch = false) := by
  refine ⟨rfl, rfl, rfl, rfl, rfl, ?_, ?_, ?_⟩
  · exact pyStripList_decomp c.content.engineered_prompt.data
  · exact pyStripList_head c.content.engineered_prompt.data
  · exact pyStripList_getLast c.content.engineered_prompt.data

/-- C4 witness: on a concrete contract whose engineered prompt is padded with
whitespace, the stripped prompt starts with a non-whitespace character and the
theorem's head-condition discharges there. -/
theorem polish_spec_witness :
    (pyStrip "  core prompt\n").data.head? = some 'c'
    ∧ isPySpace 'c' = false := by
  refine ⟨rfl, ?_⟩
  exact (polish_spec
    ⟨"vs_bias_prompt", ⟨"what could go wrong", "  core prompt\n", none, ["gender"]⟩,
      ⟨"VS Bias Audit Builder", none, []⟩,
      ⟨["Tighten structure"], ["wording"], true, some 1000⟩, none⟩
    "2026-01-01T00:00:00").2.2.2.2.2.2.1 'c' rfl

end Agent0Lite
